import Mathlib

/-!
Shallow embedding of the OkapiLib chassis motion-control core:
the `SkidSteerModel` differential-drive kinematics, the
`ChassisControllerPID` closed-loop controller state machine, and the
`ChassisControllerBuilder` wiring of PID gains and derivative filters.

Doubles are modelled as rationals (the mixing and conversion math is exact);
the final `static_cast<int16_t>` truncation when handing a command to the
motor driver is not modelled: commands are recorded at the value computed by
the source before the cast.
-/

namespace Okapi

/-- std::clamp: clamp v to the interval from lo to hi. -/
def clamp (v lo hi : ℚ) : ℚ :=
  if v < lo then lo else if hi < v then hi else v

/-- std::copysign: the magnitude of a with the sign of b. -/
def copysign (a b : ℚ) : ℚ :=
  if b < 0 then -|a| else |a|

/-- The last command sent to one motor: a velocity command
(`moveVelocity`), a voltage command (`moveVoltage`), or no command yet. -/
inductive MotorCmd where
  | velocity (v : ℚ)
  | voltage (v : ℚ)
  | idle
deriving DecidableEq, Repr

/-- State of a `SkidSteerModel`: the construction-time limits and the last
command sent to each side's motor. -/
structure SkidSteerModel where
  maxVelocity : ℚ
  maxVoltage : ℚ
  leftCmd : MotorCmd
  rightCmd : MotorCmd
deriving DecidableEq, Repr

/-- The normalized (pre-scaling) output pair of `SkidSteerModel::driveVector`
and `driveVectorVoltage`: clamp both inputs to the unit interval, mix
`left = forward + yaw`, `right = forward - yaw`, and divide both by
`max(|left|, |right|)` when that magnitude exceeds 1. -/
def driveVectorOutputs (iforwardSpeed iyaw : ℚ) : ℚ × ℚ :=
  let forwardSpeed := clamp iforwardSpeed (-1) 1
  let yaw := clamp iyaw (-1) 1
  let leftOutput := forwardSpeed + yaw
  let rightOutput := forwardSpeed - yaw
  let maxInputMag := max |leftOutput| |rightOutput|
  if maxInputMag > 1 then (leftOutput / maxInputMag, rightOutput / maxInputMag)
  else (leftOutput, rightOutput)

/-- The deadbanded speed pair of `SkidSteerModel::tank`: each side clamped to
the unit interval, then zeroed when its magnitude is strictly below the
threshold. -/
def tankSpeeds (ileftSpeed irightSpeed ithreshold : ℚ) : ℚ × ℚ :=
  let leftSpeed0 := clamp ileftSpeed (-1) 1
  let leftSpeed := if |leftSpeed0| < ithreshold then 0 else leftSpeed0
  let rightSpeed0 := clamp irightSpeed (-1) 1
  let rightSpeed := if |rightSpeed0| < ithreshold then 0 else rightSpeed0
  (leftSpeed, rightSpeed)

/-- The deadbanded input pair of `SkidSteerModel::arcade`: each input clamped
to the unit interval, then zeroed when its magnitude is at most the
threshold (non-strict, unlike `tank`). -/
def arcadeInputs (iforwardSpeed iyaw ithreshold : ℚ) : ℚ × ℚ :=
  let forwardSpeed0 := clamp iforwardSpeed (-1) 1
  let forwardSpeed := if |forwardSpeed0| ≤ ithreshold then 0 else forwardSpeed0
  let yaw0 := clamp iyaw (-1) 1
  let yaw := if |yaw0| ≤ ithreshold then 0 else yaw0
  (forwardSpeed, yaw)

/-- The pre-clamp output pair of `SkidSteerModel::arcade`: quadrant-based
mixing of the deadbanded inputs around `maxInput = copysign(max(|forward|,
|yaw|), forward)`. -/
def arcadeOutputs (iforwardSpeed iyaw ithreshold : ℚ) : ℚ × ℚ :=
  let forwardSpeed := (arcadeInputs iforwardSpeed iyaw ithreshold).1
  let yaw := (arcadeInputs iforwardSpeed iyaw ithreshold).2
  let maxInput := copysign (max |forwardSpeed| |yaw|) forwardSpeed
  if 0 ≤ forwardSpeed then
    if 0 ≤ yaw then (maxInput, forwardSpeed - yaw)
    else (forwardSpeed + yaw, maxInput)
  else
    if 0 ≤ yaw then (forwardSpeed + yaw, maxInput)
    else (maxInput, forwardSpeed - yaw)

namespace SkidSteerModel

/-- SkidSteerModel::forward: both sides get the clamped speed scaled by
maxVelocity, as velocity commands. -/
def forward (m : SkidSteerModel) (ispeed : ℚ) : SkidSteerModel :=
  let speed := clamp ispeed (-1) 1
  { m with leftCmd := MotorCmd.velocity (speed * m.maxVelocity),
           rightCmd := MotorCmd.velocity (speed * m.maxVelocity) }

/-- SkidSteerModel::driveVector: normalized mix scaled by maxVelocity, sent
as velocity commands. -/
def driveVector (m : SkidSteerModel) (iforwardSpeed iyaw : ℚ) : SkidSteerModel :=
  let outs := driveVectorOutputs iforwardSpeed iyaw
  { m with leftCmd := MotorCmd.velocity (outs.1 * m.maxVelocity),
           rightCmd := MotorCmd.velocity (outs.2 * m.maxVelocity) }

/-- SkidSteerModel::driveVectorVoltage: identical normalization, scaled by
maxVoltage and sent as voltage commands. -/
def driveVectorVoltage (m : SkidSteerModel) (iforwardSpeed iyaw : ℚ) : SkidSteerModel :=
  let outs := driveVectorOutputs iforwardSpeed iyaw
  { m with leftCmd := MotorCmd.voltage (outs.1 * m.maxVoltage),
           rightCmd := MotorCmd.voltage (outs.2 * m.maxVoltage) }

/-- SkidSteerModel::rotate: left gets the clamped speed scaled by
maxVelocity, right gets its negation. -/
def rotate (m : SkidSteerModel) (ispeed : ℚ) : SkidSteerModel :=
  let speed := clamp ispeed (-1) 1
  { m with leftCmd := MotorCmd.velocity (speed * m.maxVelocity),
           rightCmd := MotorCmd.velocity (-1 * speed * m.maxVelocity) }

/-- SkidSteerModel::stop: zero velocity command to both sides. -/
def stop (m : SkidSteerModel) : SkidSteerModel :=
  { m with leftCmd := MotorCmd.velocity 0,
           rightCmd := MotorCmd.velocity 0 }

/-- SkidSteerModel::tank: clamped and strictly deadbanded per-side speeds
scaled by maxVoltage, sent as voltage commands. -/
def tank (m : SkidSteerModel) (ileftSpeed irightSpeed ithreshold : ℚ) : SkidSteerModel :=
  let speeds := tankSpeeds ileftSpeed irightSpeed ithreshold
  { m with leftCmd := MotorCmd.voltage (speeds.1 * m.maxVoltage),
           rightCmd := MotorCmd.voltage (speeds.2 * m.maxVoltage) }

/-- SkidSteerModel::arcade: quadrant-mixed outputs re-clamped to the unit
interval, scaled by maxVoltage, sent as voltage commands. -/
def arcade (m : SkidSteerModel) (iforwardSpeed iyaw ithreshold : ℚ) : SkidSteerModel :=
  let outs := arcadeOutputs iforwardSpeed iyaw ithreshold
  { m with leftCmd := MotorCmd.voltage (clamp outs.1 (-1) 1 * m.maxVoltage),
           rightCmd := MotorCmd.voltage (clamp outs.2 (-1) 1 * m.maxVoltage) }

/-- SkidSteerModel::left: single-side velocity command, clamped and scaled
by maxVelocity. -/
def left (m : SkidSteerModel) (ispeed : ℚ) : SkidSteerModel :=
  { m with leftCmd := MotorCmd.velocity (clamp ispeed (-1) 1 * m.maxVelocity) }

/-- SkidSteerModel::right: single-side velocity command, clamped and scaled
by maxVelocity. -/
def right (m : SkidSteerModel) (ispeed : ℚ) : SkidSteerModel :=
  { m with rightCmd := MotorCmd.velocity (clamp ispeed (-1) 1 * m.maxVelocity) }

end SkidSteerModel

/-- ChassisScales: ticks per unit of linear distance (straight) and ticks
per degree of rotation (turn). -/
structure ChassisScales where
  straight : ℚ
  turn : ℚ
deriving DecidableEq, Repr

/-- AbstractMotor::GearsetRatioPair: an internal gearset identifier plus the
numeric ratio multiplying tick targets. -/
structure GearsetRatioPair where
  internalGearset : ℕ
  ratio : ℚ
deriving DecidableEq, Repr

/-- Observable state of one IterativePosPIDController as used by the chassis
controller: its current target, its disabled flag (toggled by
`flipDisable`), and a counter of `reset()` calls (the controller's internal
error dynamics are an external capability and are not modelled). -/
structure IterativePosPIDController where
  target : ℚ
  disabled : Bool
  resetCount : ℕ
deriving DecidableEq, Repr

namespace IterativePosPIDController

/-- IterativePosPIDController::reset, observed as a counter bump. -/
def reset (p : IterativePosPIDController) : IterativePosPIDController :=
  { p with resetCount := p.resetCount + 1 }

/-- IterativePosPIDController::flipDisable(bool). -/
def flipDisable (p : IterativePosPIDController) (b : Bool) : IterativePosPIDController :=
  { p with disabled := b }

/-- IterativePosPIDController::setTarget. -/
def setTarget (p : IterativePosPIDController) (t : ℚ) : IterativePosPIDController :=
  { p with target := t }

end IterativePosPIDController

/-- ChassisControllerPID::modeType. -/
inductive ModeType where
  | distance
  | angle
  | none
deriving DecidableEq, Repr

/-- mathUtil boolToSign helper. Modelled from the spec: the configured
turn-direction sign multiplier (`turnDirectionSign`), a plus-or-minus-one
factor chosen by the normal-turns flag; the helper's definition lives in a
math utility header outside the provided sources. -/
def boolToSign (b : Bool) : ℚ :=
  if b then 1 else -1

/-- Shared mutable state of a ChassisControllerPID: the model it drives, its
three PID controllers, conversion scales/gearing, and the three cross-thread
flags. -/
structure ChassisControllerPID where
  model : SkidSteerModel
  distancePid : IterativePosPIDController
  turnPid : IterativePosPIDController
  anglePid : IterativePosPIDController
  scales : ChassisScales
  gearsetRatioPair : GearsetRatioPair
  normalTurns : Bool
  mode : ModeType
  doneLooping : Bool
  newMovement : Bool
deriving DecidableEq, Repr

namespace ChassisControllerPID

/-- ChassisControllerPID::moveDistanceAsync(QLength): the argument is the
target expressed in meters (`itarget.convert(meter)`). Resets and enables
the distance and angle PIDs, disables the turn PID, enters DISTANCE mode,
converts the target to motor degrees via straight scale and gear ratio, and
signals the background loop. -/
def moveDistanceAsync (s : ChassisControllerPID) (itargetMeters : ℚ) : ChassisControllerPID :=
  let newTarget := itargetMeters * s.scales.straight * s.gearsetRatioPair.ratio
  { s with
    distancePid := (s.distancePid.reset.flipDisable false).setTarget newTarget,
    anglePid := (s.anglePid.reset.flipDisable false).setTarget 0,
    turnPid := s.turnPid.flipDisable true,
    mode := ModeType.distance,
    doneLooping := false,
    newMovement := true }

/-- ChassisControllerPID::turnAngleAsync(QAngle): the argument is the target
expressed in degrees (`idegTarget.convert(degree)`). Resets and enables the
turn PID, disables the distance and angle PIDs, enters ANGLE mode, converts
the target to motor degrees via turn scale, gear ratio and the
turn-direction sign, and signals the background loop. -/
def turnAngleAsync (s : ChassisControllerPID) (idegTarget : ℚ) : ChassisControllerPID :=
  let newTarget := idegTarget * s.scales.turn * s.gearsetRatioPair.ratio
    * boolToSign s.normalTurns
  { s with
    turnPid := (s.turnPid.reset.flipDisable false).setTarget newTarget,
    distancePid := s.distancePid.flipDisable true,
    anglePid := s.anglePid.flipDisable true,
    mode := ModeType.angle,
    doneLooping := false,
    newMovement := true }

/-- ChassisControllerPID::stopAfterSettled: disable all three PIDs and stop
the model. -/
def stopAfterSettled (s : ChassisControllerPID) : ChassisControllerPID :=
  { s with
    distancePid := s.distancePid.flipDisable true,
    anglePid := s.anglePid.flipDisable true,
    turnPid := s.turnPid.flipDisable true,
    model := s.model.stop }

end ChassisControllerPID

/-- A motion request issued concurrently by the client thread while
`waitUntilSettled` is polling. -/
inductive ClientEvent where
  | moveDist (targetMeters : ℚ)
  | turnAngle (targetDegrees : ℚ)
deriving DecidableEq, Repr

/-- One 10 ms poll instant of the settle-wait: an optional concurrent client
call that lands just before this instant's reads, and the three
`isSettled()` verdicts the PID primitives report at this instant (their
internal settling dynamics are an external capability). -/
structure Tick where
  event : Option ClientEvent
  distanceSettled : Bool
  angleSettled : Bool
  turnSettled : Bool
deriving DecidableEq, Repr

namespace ChassisControllerPID

/-- Apply a concurrent client call to the shared controller state. -/
def applyEvent (s : ChassisControllerPID) : Option ClientEvent → ChassisControllerPID
  | Option.none => s
  | Option.some (ClientEvent.moveDist d) => s.moveDistanceAsync d
  | Option.some (ClientEvent.turnAngle a) => s.turnAngleAsync a

/-- ChassisControllerPID::waitForDistanceSettled: poll until the distance and
angle PIDs are simultaneously settled (return true), aborting with false as
soon as the shared mode is observed to have changed to angle. Returns the
shared state and remaining trace at the return instant; an exhausted trace
means the poll was still running. -/
def waitForDistanceSettled :
    ChassisControllerPID → List Tick → Option (Bool × ChassisControllerPID × List Tick)
  | _, [] => Option.none
  | s, t :: rest =>
    let s' := s.applyEvent t.event
    if t.distanceSettled && t.angleSettled then Option.some (true, s', rest)
    else if s'.mode = ModeType.angle then Option.some (false, s', rest)
    else waitForDistanceSettled s' rest

/-- ChassisControllerPID::waitForAngleSettled: poll until the turn PID is
settled (return true), aborting with false as soon as the shared mode is
observed to have changed to distance. -/
def waitForAngleSettled :
    ChassisControllerPID → List Tick → Option (Bool × ChassisControllerPID × List Tick)
  | _, [] => Option.none
  | s, t :: rest =>
    let s' := s.applyEvent t.event
    if t.turnSettled then Option.some (true, s', rest)
    else if s'.mode = ModeType.distance then Option.some (false, s', rest)
    else waitForAngleSettled s' rest

/-- The while loop of ChassisControllerPID::waitUntilSettled: dispatch on
the current mode; a mode of NONE means completely settled; a false result
from an inner wait re-enters the switch. Fuel bounds the number of switch
dispatches; `Option.none` means the wait was still blocked when the trace or
fuel ran out. -/
def waitUntilSettledLoop (s : ChassisControllerPID) (tr : List Tick) :
    ℕ → Option (ChassisControllerPID × List Tick)
  | 0 => Option.none
  | fuel + 1 =>
    match s.mode with
    | ModeType.distance =>
      match waitForDistanceSettled s tr with
      | Option.none => Option.none
      | Option.some (true, s', tr') => Option.some (s', tr')
      | Option.some (false, s', tr') => waitUntilSettledLoop s' tr' fuel
    | ModeType.angle =>
      match waitForAngleSettled s tr with
      | Option.none => Option.none
      | Option.some (true, s', tr') => Option.some (s', tr')
      | Option.some (false, s', tr') => waitUntilSettledLoop s' tr' fuel
    | ModeType.none => Option.some (s, tr)

/-- ChassisControllerPID::waitUntilSettled: run the settle-wait loop, then
disable all three PIDs, stop the model, set mode to NONE and doneLooping to
true before returning. -/
def waitUntilSettled (s : ChassisControllerPID) (tr : List Tick) (fuel : ℕ) :
    Option ChassisControllerPID :=
  match waitUntilSettledLoop s tr fuel with
  | Option.none => Option.none
  | Option.some (s', _) =>
    Option.some { s'.stopAfterSettled with mode := ModeType.none, doneLooping := true }

end ChassisControllerPID

namespace ChassisControllerPID

/-- One iteration of the while body of ChassisControllerPID::loop.

Loop-local state: `pastMode` (the mode seen on the previous tick) and
`encStartVals` (the encoder baseline). The body may call
`model->getSensorVals()` up to twice in one iteration: `encA` is what the
re-baseline read returns (consumed only when re-baselining) and `encB` what
the delta read returns (consumed only in DISTANCE or ANGLE mode). `stepD`,
`stepA`, `stepT` are the outputs the three PID primitives return for a given
error sample (an external capability). Returns the updated shared state,
`pastMode` and baseline. -/
def loopTick (s : ChassisControllerPID) (pastMode : ModeType) (encStartVals : ℤ × ℤ)
    (encA encB : ℤ × ℤ) (stepD stepA stepT : ℚ → ℚ) :
    ChassisControllerPID × ModeType × (ℤ × ℤ) :=
  if s.doneLooping then (s, pastMode, encStartVals)
  else
    let encStartVals :=
      if s.mode ≠ pastMode ∨ s.newMovement = true then encA else encStartVals
    let s :=
      if s.mode ≠ pastMode ∨ s.newMovement = true then { s with newMovement := false } else s
    match s.mode with
    | ModeType.distance =>
      let encVals : ℤ × ℤ := (encB.1 - encStartVals.1, encB.2 - encStartVals.2)
      let distanceElapsed : ℚ := ((encVals.1 + encVals.2 : ℤ) : ℚ) / 2
      let angleChange : ℚ := ((encVals.1 - encVals.2 : ℤ) : ℚ)
      ({ s with model := s.model.driveVector (stepD distanceElapsed) (stepA angleChange) },
       s.mode, encStartVals)
    | ModeType.angle =>
      let encVals : ℤ × ℤ := (encB.1 - encStartVals.1, encB.2 - encStartVals.2)
      let angleChange : ℚ := ((encVals.1 - encVals.2 : ℤ) : ℚ)
      ({ s with model := s.model.rotate (stepT angleChange) }, s.mode, encStartVals)
    | ModeType.none => (s, s.mode, encStartVals)

end ChassisControllerPID

/-- The ChassisControllerPID constructor, observed by the constructing
caller: throws std::invalid_argument when the gearset ratio is zero,
otherwise yields a controller in its initial idle state. Initial flag
values modelled from the spec: `doneLooping` true means the loop is idle
until a movement is issued, `mode` NONE, `newMovement` false (the member
initializers live in the class declaration header outside the provided
sources). -/
def mkChassisControllerPID (model : SkidSteerModel)
    (distanceController turnController angleController : IterativePosPIDController)
    (igearset : GearsetRatioPair) (iscales : ChassisScales) (normalTurns : Bool) :
    Except String ChassisControllerPID :=
  if igearset.ratio = 0 then
    Except.error "ChassisControllerPID: The gear ratio cannot be zero! Check if you are using integer division."
  else
    Except.ok
      { model := model,
        distancePid := distanceController,
        turnPid := turnController,
        anglePid := angleController,
        scales := iscales,
        gearsetRatioPair := igearset,
        normalTurns := normalTurns,
        mode := ModeType.none,
        doneLooping := true,
        newMovement := false }

/-- IterativePosPIDController::Gains. -/
structure Gains where
  kP : ℚ
  kI : ℚ
  kD : ℚ
  kBias : ℚ
deriving DecidableEq, Repr

/-- The fields of ChassisControllerBuilder relevant to gain and filter
wiring. Derivative filters are opaque handles, modelled as natural-number
identifiers. -/
structure ChassisControllerBuilder where
  hasMotors : Bool
  hasGains : Bool
  distanceGains : Gains
  angleGains : Gains
  turnGains : Gains
  distanceFilter : ℕ
  angleFilter : ℕ
  turnFilter : ℕ
deriving DecidableEq, Repr

/-- An IterativePosPIDController as assembled by buildCCPID: the gains and
the derivative filter passed to its construction. -/
structure BuiltPIDController where
  gains : Gains
  derivativeFilter : ℕ
deriving DecidableEq, Repr

/-- The three PID controllers handed to the ChassisControllerPID
constructor, labelled by the constructor's parameter positions
(idistanceController, iturnController, iangleController). -/
structure CCPIDControllers where
  distanceController : BuiltPIDController
  turnController : BuiltPIDController
  angleController : BuiltPIDController
deriving DecidableEq, Repr

namespace ChassisControllerBuilder

/-- The three-argument ChassisControllerBuilder::withGains as defined in the
.cpp: the second parameter is stored into the turnGains field and the third
into the angleGains field (the header declaration documents the second as
the angle gains and the third as the turn gains). -/
def withGains (b : ChassisControllerBuilder)
    (idistanceGains iturnGains iangleGains : Gains) : ChassisControllerBuilder :=
  { b with
    hasGains := true,
    distanceGains := idistanceGains,
    turnGains := iturnGains,
    angleGains := iangleGains }

/-- ChassisControllerBuilder::buildCCPID, skid-steer path: the constructor's
distance position receives the distanceGains/distanceFilter pair, the turn
position the angleGains/angleFilter pair, and the angle position the
turnGains/turnFilter pair. -/
def buildCCPID (b : ChassisControllerBuilder) : CCPIDControllers :=
  { distanceController := { gains := b.distanceGains, derivativeFilter := b.distanceFilter },
    turnController := { gains := b.angleGains, derivativeFilter := b.angleFilter },
    angleController := { gains := b.turnGains, derivativeFilter := b.turnFilter } }

end ChassisControllerBuilder

/-- The result of ChassisControllerBuilder::build: a ChassisControllerPID
when gains were set, a ChassisControllerIntegrated otherwise. -/
inductive BuildResult where
  | ccpid (controllers : CCPIDControllers)
  | cci
deriving DecidableEq, Repr

namespace ChassisControllerBuilder

/-- ChassisControllerBuilder::build: throws when no motors were given,
builds a ChassisControllerPID when gains were set, and a
ChassisControllerIntegrated otherwise. -/
def build (b : ChassisControllerBuilder) : Except String BuildResult :=
  if b.hasMotors = false then
    Except.error "ChassisControllerBuilder: No motors given."
  else if b.hasGains = true then
    Except.ok (BuildResult.ccpid b.buildCCPID)
  else
    Except.ok BuildResult.cci

end ChassisControllerBuilder

/-! Concrete sample states used to exercise the theorems. -/

/-- A sample model with the default limits of the builder. -/
def sampleModel : SkidSteerModel :=
  { maxVelocity := 600, maxVoltage := 12000,
    leftCmd := MotorCmd.idle, rightCmd := MotorCmd.idle }

/-- A sample PID controller in its disabled initial state. -/
def samplePid : IterativePosPIDController :=
  { target := 0, disabled := true, resetCount := 0 }

/-- A sample controller with scales straight = 2, turn = 2 and gear ratio 1,
idle. -/
def sampleCCP : ChassisControllerPID :=
  { model := sampleModel,
    distancePid := samplePid,
    turnPid := samplePid,
    anglePid := samplePid,
    scales := { straight := 2, turn := 2 },
    gearsetRatioPair := { internalGearset := 600, ratio := 1 },
    normalTurns := true,
    mode := ModeType.none,
    doneLooping := true,
    newMovement := false }

/-- Sample gains. -/
def sampleGainsA : Gains := { kP := 1, kI := 0, kD := 0, kBias := 0 }

/-- Sample gains, distinct from sampleGainsA. -/
def sampleGainsB : Gains := { kP := 2, kI := 0, kD := 0, kBias := 0 }

/-- Sample gains, distinct from the other two. -/
def sampleGainsC : Gains := { kP := 3, kI := 0, kD := 0, kBias := 0 }

/-- A sample builder with motors set and distinct filter handles. -/
def sampleBuilder : ChassisControllerBuilder :=
  { hasMotors := true, hasGains := false,
    distanceGains := sampleGainsA, angleGains := sampleGainsA, turnGains := sampleGainsA,
    distanceFilter := 10, angleFilter := 11, turnFilter := 12 }

/-- C3: moveDistanceAsync resets and enables the distance and angle PIDs,
disables the turn PID, sets mode to DISTANCE, sets the distance-PID target
to target times straight scale times gear ratio and the angle-PID target to
0, and sets newMovement and clears doneLooping; with straight scale 2 and
gear ratio 1, a 6 meter move yields a distance target of 12 ticks and an
angle target of 0. -/
theorem moveDistanceAsync_spec :
    (∀ (s : ChassisControllerPID) (d : ℚ),
      (s.moveDistanceAsync d).distancePid.resetCount = s.distancePid.resetCount + 1 ∧
      (s.moveDistanceAsync d).distancePid.disabled = false ∧
      (s.moveDistanceAsync d).anglePid.resetCount = s.anglePid.resetCount + 1 ∧
      (s.moveDistanceAsync d).anglePid.disabled = false ∧
      (s.moveDistanceAsync d).turnPid.disabled = true ∧
      (s.moveDistanceAsync d).mode = ModeType.distance ∧
      (s.moveDistanceAsync d).distancePid.target =
        d * s.scales.straight * s.gearsetRatioPair.ratio ∧
      (s.moveDistanceAsync d).anglePid.target = 0 ∧
      (s.moveDistanceAsync d).newMovement = true ∧
      (s.moveDistanceAsync d).doneLooping = false) ∧
    (∀ (s : ChassisControllerPID), s.scales.straight = 2 → s.gearsetRatioPair.ratio = 1 →
      (s.moveDistanceAsync 6).distancePid.target = 12 ∧
      (s.moveDistanceAsync 6).anglePid.target = 0) := by
  constructor
  · intro s d
    simp [ChassisControllerPID.moveDistanceAsync, IterativePosPIDController.reset,
      IterativePosPIDController.flipDisable, IterativePosPIDController.setTarget]
  · intro s h1 h2
    simp [ChassisControllerPID.moveDistanceAsync, IterativePosPIDController.reset,
      IterativePosPIDController.flipDisable, IterativePosPIDController.setTarget, h1, h2]
    norm_num

/-- Witness for C3 at the sample controller. -/
theorem moveDistanceAsync_spec_witness :
    sampleCCP.scales.straight = 2 ∧ sampleCCP.gearsetRatioPair.ratio = 1 ∧
    ((sampleCCP.moveDistanceAsync 6).distancePid.target = 12 ∧
     (sampleCCP.moveDistanceAsync 6).anglePid.target = 0) :=
  ⟨by decide, by decide, moveDistanceAsync_spec.2 sampleCCP (by decide) (by decide)⟩

/-- C4: turnAngleAsync resets and enables the turn PID, disables the
distance and angle PIDs, sets mode to ANGLE, sets the turn-PID target to
target times turn scale times gear ratio times the turn-direction sign, and
sets newMovement and clears doneLooping; with turn scale 2 and gear ratio 1,
a 6 degree turn yields a turn target of 12 ticks up to the configured
turn-direction sign. -/
theorem turnAngleAsync_spec :
    (∀ (s : ChassisControllerPID) (a : ℚ),
      (s.turnAngleAsync a).turnPid.resetCount = s.turnPid.resetCount + 1 ∧
      (s.turnAngleAsync a).turnPid.disabled = false ∧
      (s.turnAngleAsync a).distancePid.disabled = true ∧
      (s.turnAngleAsync a).anglePid.disabled = true ∧
      (s.turnAngleAsync a).mode = ModeType.angle ∧
      (s.turnAngleAsync a).turnPid.target =
        a * s.scales.turn * s.gearsetRatioPair.ratio * boolToSign s.normalTurns ∧
      (s.turnAngleAsync a).newMovement = true ∧
      (s.turnAngleAsync a).doneLooping = false) ∧
    (∀ (s : ChassisControllerPID), s.scales.turn = 2 → s.gearsetRatioPair.ratio = 1 →
      (s.turnAngleAsync 6).turnPid.target = 12 * boolToSign s.normalTurns) := by
  constructor
  · intro s a
    simp [ChassisControllerPID.turnAngleAsync, IterativePosPIDController.reset,
      IterativePosPIDController.flipDisable, IterativePosPIDController.setTarget]
  · intro s h1 h2
    simp only [ChassisControllerPID.turnAngleAsync, IterativePosPIDController.reset,
      IterativePosPIDController.flipDisable, IterativePosPIDController.setTarget]
    rw [h1, h2]
    ring

/-- Witness for C4 at the sample controller. -/
theorem turnAngleAsync_spec_witness :
    sampleCCP.scales.turn = 2 ∧ sampleCCP.gearsetRatioPair.ratio = 1 ∧
    (sampleCCP.turnAngleAsync 6).turnPid.target = 12 * boolToSign sampleCCP.normalTurns :=
  ⟨by decide, by decide, turnAngleAsync_spec.2 sampleCCP (by decide) (by decide)⟩

/-- C9: constructing the ChassisControllerPID succeeds exactly when the
gearset ratio is nonzero; a zero ratio makes the constructor fail to the
constructing caller before any motion is issued. -/
theorem mkChassisControllerPID_ok_iff :
    ∀ (model : SkidSteerModel)
      (dCtl tCtl aCtl : IterativePosPIDController)
      (igearset : GearsetRatioPair) (iscales : ChassisScales) (nt : Bool),
      (mkChassisControllerPID model dCtl tCtl aCtl igearset iscales nt).isOk = true
        ↔ igearset.ratio ≠ 0 := by
  intro model dCtl tCtl aCtl igearset iscales nt
  unfold mkChassisControllerPID
  by_cases h : igearset.ratio = 0
  · simp [h, Except.isOk, Except.toBool]
  · simp [h, Except.isOk, Except.toBool]

/-- C10: calling withGains in the header-declared order (distance, angle,
turn) and then build with motors set yields a ChassisControllerPID whose
turn controller carries the turn gains and whose angle controller carries
the angle gains — the .cpp field swap and the constructor-argument swap
cancel for the gains — while the angle derivative filter ends up paired
with the turn controller and the turn filter with the angle controller. -/
theorem withGains_build_spec :
    ∀ (b : ChassisControllerBuilder) (dGains aGains tGains : Gains),
      b.hasMotors = true →
      ((b.withGains dGains aGains tGains).turnGains = aGains ∧
       (b.withGains dGains aGains tGains).angleGains = tGains) ∧
      (b.withGains dGains aGains tGains).build =
        Except.ok (BuildResult.ccpid (b.withGains dGains aGains tGains).buildCCPID) ∧
      (b.withGains dGains aGains tGains).buildCCPID.distanceController.gains = dGains ∧
      (b.withGains dGains aGains tGains).buildCCPID.turnController.gains = tGains ∧
      (b.withGains dGains aGains tGains).buildCCPID.angleController.gains = aGains ∧
      (b.withGains dGains aGains tGains).buildCCPID.turnController.derivativeFilter =
        b.angleFilter ∧
      (b.withGains dGains aGains tGains).buildCCPID.angleController.derivativeFilter =
        b.turnFilter := by
  intro b dGains aGains tGains hm
  refine ⟨⟨rfl, rfl⟩, ?_, rfl, rfl, rfl, rfl, rfl⟩
  simp [ChassisControllerBuilder.build, ChassisControllerBuilder.withGains, hm]

/-! Helper lemmas about clamping and the driveVector mixing math. -/

theorem le_clamp_unit (x : ℚ) : -1 ≤ clamp x (-1) 1 := by
  unfold clamp
  split_ifs <;> linarith

theorem clamp_unit_le (x : ℚ) : clamp x (-1) 1 ≤ 1 := by
  unfold clamp
  split_ifs <;> linarith

theorem abs_clamp_unit_le_one (x : ℚ) : |clamp x (-1) 1| ≤ 1 :=
  abs_le.mpr ⟨le_clamp_unit x, clamp_unit_le x⟩

theorem abs_clamp_unit_le_abs (x : ℚ) : |clamp x (-1) 1| ≤ |x| := by
  unfold clamp
  split_ifs with h1 h2
  · have hx : |x| = -x := abs_of_neg (by linarith)
    rw [hx]
    norm_num
    linarith
  · have hx : |x| = x := abs_of_pos (by linarith)
    rw [hx]
    norm_num
    linarith
  · exact le_refl _

theorem clamp_unit_eq_self {x : ℚ} (h1 : -1 ≤ x) (h2 : x ≤ 1) : clamp x (-1) 1 = x := by
  unfold clamp
  split_ifs <;> linarith

theorem abs_mul_le_of_abs_le_one {a c : ℚ} (ha : |a| ≤ 1) (hc : 0 ≤ c) : |a * c| ≤ c := by
  rw [abs_mul]
  calc |a| * |c| ≤ 1 * |c| := mul_le_mul_of_nonneg_right ha (abs_nonneg c)
    _ = |c| := one_mul _
    _ = c := abs_of_nonneg hc

theorem driveVectorOutputs_abs_le (f y : ℚ) :
    |(driveVectorOutputs f y).1| ≤ 1 ∧ |(driveVectorOutputs f y).2| ≤ 1 := by
  simp only [driveVectorOutputs]
  by_cases h :
      max |clamp f (-1) 1 + clamp y (-1) 1| |clamp f (-1) 1 - clamp y (-1) 1| > 1
  · simp only [h, if_true]
    have hM : (0:ℚ) < max |clamp f (-1) 1 + clamp y (-1) 1| |clamp f (-1) 1 - clamp y (-1) 1| :=
      lt_trans one_pos h
    constructor
    · rw [abs_div, abs_of_pos hM]
      exact (div_le_one hM).mpr (le_max_left _ _)
    · rw [abs_div, abs_of_pos hM]
      exact (div_le_one hM).mpr (le_max_right _ _)
  · simp only [h, if_false]
    push_neg at h
    exact ⟨le_trans (le_max_left _ _) h, le_trans (le_max_right _ _) h⟩

/-- C6: for inputs in the unit interval, driveVector's velocity commands are
bounded by maxVelocity; with no normalization needed the output pair is
exactly (forward + yaw, forward - yaw), so the left/right ratio is
(forward + yaw)/(forward - yaw); when the maximum mixed magnitude exceeds 1
both outputs are divided by it, and the left/right ratio is preserved in
every case. -/
theorem driveVector_bounds_and_ratio :
    ∀ (m : SkidSteerModel) (f y : ℚ),
      -1 ≤ f → f ≤ 1 → -1 ≤ y → y ≤ 1 → 0 ≤ m.maxVelocity →
      ((m.driveVector f y).leftCmd
          = MotorCmd.velocity ((driveVectorOutputs f y).1 * m.maxVelocity) ∧
       (m.driveVector f y).rightCmd
          = MotorCmd.velocity ((driveVectorOutputs f y).2 * m.maxVelocity)) ∧
      (|(driveVectorOutputs f y).1 * m.maxVelocity| ≤ m.maxVelocity ∧
       |(driveVectorOutputs f y).2 * m.maxVelocity| ≤ m.maxVelocity) ∧
      (max |f + y| |f - y| ≤ 1 → driveVectorOutputs f y = (f + y, f - y)) ∧
      (max |f + y| |f - y| > 1 →
        driveVectorOutputs f y
          = ((f + y) / max |f + y| |f - y|, (f - y) / max |f + y| |f - y|)) ∧
      (driveVectorOutputs f y).1 / (driveVectorOutputs f y).2 = (f + y) / (f - y) := by
  intro m f y hf1 hf2 hy1 hy2 hv
  have hcf : clamp f (-1) 1 = f := clamp_unit_eq_self hf1 hf2
  have hcy : clamp y (-1) 1 = y := clamp_unit_eq_self hy1 hy2
  have houts : driveVectorOutputs f y =
      if max |f + y| |f - y| > 1
      then ((f + y) / max |f + y| |f - y|, (f - y) / max |f + y| |f - y|)
      else (f + y, f - y) := by
    simp only [driveVectorOutputs, hcf, hcy]
  refine ⟨⟨rfl, rfl⟩,
    ⟨abs_mul_le_of_abs_le_one (driveVectorOutputs_abs_le f y).1 hv,
     abs_mul_le_of_abs_le_one (driveVectorOutputs_abs_le f y).2 hv⟩, ?_, ?_, ?_⟩
  · intro h
    rw [houts, if_neg (not_lt.mpr h)]
  · intro h
    rw [houts, if_pos h]
  · rw [houts]
    by_cases h : max |f + y| |f - y| > 1
    · rw [if_pos h]
      exact div_div_div_cancel_right₀ (ne_of_gt (lt_trans one_pos h)) _ _
    · rw [if_neg h]

/-- Witness for C6 at forward 3/4, yaw 1/2 (which triggers normalization)
on the sample model. -/
theorem driveVector_bounds_and_ratio_witness :
    (-1 ≤ (3/4 : ℚ) ∧ (3/4 : ℚ) ≤ 1 ∧ -1 ≤ (1/2 : ℚ) ∧ (1/2 : ℚ) ≤ 1 ∧
     0 ≤ sampleModel.maxVelocity) ∧
    (|(driveVectorOutputs (3/4) (1/2)).1 * sampleModel.maxVelocity|
        ≤ sampleModel.maxVelocity ∧
     |(driveVectorOutputs (3/4) (1/2)).2 * sampleModel.maxVelocity|
        ≤ sampleModel.maxVelocity) ∧
    (driveVectorOutputs (3/4) (1/2)).1 / (driveVectorOutputs (3/4) (1/2)).2
      = ((3/4 : ℚ) + 1/2) / ((3/4 : ℚ) - 1/2) :=
  ⟨⟨by norm_num, by norm_num, by norm_num, by norm_num, by decide⟩,
   (driveVector_bounds_and_ratio sampleModel (3/4) (1/2) (by norm_num) (by norm_num)
      (by norm_num) (by norm_num) (by decide)).2.1,
   (driveVector_bounds_and_ratio sampleModel (3/4) (1/2) (by norm_num) (by norm_num)
      (by norm_num) (by norm_num) (by decide)).2.2.2.2⟩

theorem tankSpeeds_fst_of_abs_le_one {x : ℚ} (y t : ℚ) (hx : |x| ≤ 1) :
    (tankSpeeds x y t).1 = if |x| < t then 0 else x := by
  have h := abs_le.mp hx
  simp only [tankSpeeds, clamp_unit_eq_self h.1 h.2]

theorem tankSpeeds_snd_of_abs_le_one {y : ℚ} (x t : ℚ) (hy : |y| ≤ 1) :
    (tankSpeeds x y t).2 = if |y| < t then 0 else y := by
  have h := abs_le.mp hy
  simp only [tankSpeeds, clamp_unit_eq_self h.1 h.2]

theorem arcadeInputs_eq_zero {f y t : ℚ} (hf : |f| ≤ t) (hy : |y| ≤ t) :
    arcadeInputs f y t = (0, 0) := by
  simp only [arcadeInputs]
  rw [if_pos (le_trans (abs_clamp_unit_le_abs f) hf),
    if_pos (le_trans (abs_clamp_unit_le_abs y) hy)]

/-- C7: the tank deadband is strict while the arcade deadband is
non-strict: for unit-range nonzero inputs, tank zeroes a side's voltage
command exactly when that side's magnitude is strictly below the threshold
(regardless of the other side), arcade zeroes an input exactly when its
magnitude is at most the threshold, arcade with both magnitudes at most the
threshold sends zero voltage on both sides, and tank with a side exactly at
the threshold does not zero that side. -/
theorem tank_strict_arcade_nonstrict :
    (∀ (m : SkidSteerModel) (x y t : ℚ), |x| ≤ 1 → x ≠ 0 → 0 < m.maxVoltage →
      ((m.tank x y t).leftCmd = MotorCmd.voltage 0 ↔ |x| < t)) ∧
    (∀ (m : SkidSteerModel) (x y t : ℚ), |y| ≤ 1 → y ≠ 0 → 0 < m.maxVoltage →
      ((m.tank x y t).rightCmd = MotorCmd.voltage 0 ↔ |y| < t)) ∧
    (∀ (f y t : ℚ), |f| ≤ 1 → f ≠ 0 → ((arcadeInputs f y t).1 = 0 ↔ |f| ≤ t)) ∧
    (∀ (f y t : ℚ), |y| ≤ 1 → y ≠ 0 → ((arcadeInputs f y t).2 = 0 ↔ |y| ≤ t)) ∧
    (∀ (m : SkidSteerModel) (f y t : ℚ), |f| ≤ t → |y| ≤ t →
      (m.arcade f y t).leftCmd = MotorCmd.voltage 0 ∧
      (m.arcade f y t).rightCmd = MotorCmd.voltage 0) ∧
    (∀ (m : SkidSteerModel) (y t : ℚ), 0 < t → t ≤ 1 → 0 < m.maxVoltage →
      (m.tank t y t).leftCmd ≠ MotorCmd.voltage 0) := by
  refine ⟨?_, ?_, ?_, ?_, ?_, ?_⟩
  · intro m x y t hx hx0 hv
    simp only [SkidSteerModel.tank, tankSpeeds_fst_of_abs_le_one y t hx,
      MotorCmd.voltage.injEq]
    by_cases h : |x| < t
    · simp [h]
    · simp [h, mul_eq_zero, hx0, ne_of_gt hv]
  · intro m x y t hy hy0 hv
    simp only [SkidSteerModel.tank, tankSpeeds_snd_of_abs_le_one x t hy,
      MotorCmd.voltage.injEq]
    by_cases h : |y| < t
    · simp [h]
    · simp [h, mul_eq_zero, hy0, ne_of_gt hv]
  · intro f y t hf hf0
    have h := abs_le.mp hf
    simp only [arcadeInputs, clamp_unit_eq_self h.1 h.2]
    by_cases hle : |f| ≤ t
    · simp [hle]
    · simp [hle, hf0]
  · intro f y t hy hy0
    have h := abs_le.mp hy
    simp only [arcadeInputs]
    rw [clamp_unit_eq_self h.1 h.2]
    by_cases hle : |y| ≤ t
    · simp [hle]
    · simp [hle, hy0]
  · intro m f y t hf hy
    have hz := arcadeInputs_eq_zero hf hy
    simp only [SkidSteerModel.arcade, arcadeOutputs, hz]
    norm_num [copysign, clamp]
  · intro m y t ht0 ht1 hv
    have habs : |t| ≤ 1 := by
      rw [abs_of_pos ht0]
      exact ht1
    simp only [SkidSteerModel.tank, tankSpeeds_fst_of_abs_le_one y t habs,
      MotorCmd.voltage.injEq, ne_eq]
    rw [if_neg (by rw [abs_of_pos ht0]; exact lt_irrefl t)]
    exact mul_ne_zero (ne_of_gt ht0) (ne_of_gt hv)

/-- Witness for C7: tank with left input 1/4 below threshold 1/2 zeroes the
left side, tank exactly at the threshold does not, and arcade at the
threshold zeroes both sides, all on the sample model. -/
theorem tank_strict_arcade_nonstrict_witness :
    (|(1/4 : ℚ)| ≤ 1 ∧ (1/4 : ℚ) ≠ 0 ∧ 0 < sampleModel.maxVoltage ∧
      ((sampleModel.tank (1/4) (3/4) (1/2)).leftCmd = MotorCmd.voltage 0 ↔
        |(1/4 : ℚ)| < 1/2)) ∧
    (|(1/2 : ℚ)| ≤ (1/2 : ℚ) ∧
      (sampleModel.arcade (1/2) (1/2) (1/2)).leftCmd = MotorCmd.voltage 0 ∧
      (sampleModel.arcade (1/2) (1/2) (1/2)).rightCmd = MotorCmd.voltage 0) ∧
    ((0 : ℚ) < 1/2 ∧ (1/2 : ℚ) ≤ 1 ∧
      (sampleModel.tank (1/2) (3/4) (1/2)).leftCmd ≠ MotorCmd.voltage 0) :=
  ⟨⟨abs_le.mpr ⟨by norm_num, by norm_num⟩, by norm_num, by norm_num [sampleModel],
    tank_strict_arcade_nonstrict.1 sampleModel (1/4) (3/4) (1/2)
      (abs_le.mpr ⟨by norm_num, by norm_num⟩)
      (by norm_num) (by norm_num [sampleModel])⟩,
   ⟨abs_le.mpr ⟨by norm_num, by norm_num⟩,
    tank_strict_arcade_nonstrict.2.2.2.2.1 sampleModel (1/2) (1/2) (1/2)
      (abs_le.mpr ⟨by norm_num, by norm_num⟩)
      (abs_le.mpr ⟨by norm_num, by norm_num⟩)⟩,
   ⟨by norm_num, by norm_num,
    tank_strict_arcade_nonstrict.2.2.2.2.2 sampleModel (3/4) (1/2) (by norm_num)
      (by norm_num) (by norm_num [sampleModel])⟩⟩

/-- A motor command respects the velocity and voltage limits. -/
def MotorCmd.withinLimits : MotorCmd → ℚ → ℚ → Prop
  | MotorCmd.velocity v, maxVel, _ => |v| ≤ maxVel
  | MotorCmd.voltage v, _, maxVolt => |v| ≤ maxVolt
  | MotorCmd.idle, _, _ => True

theorem tankSpeeds_abs_le_one (a b t : ℚ) :
    |(tankSpeeds a b t).1| ≤ 1 ∧ |(tankSpeeds a b t).2| ≤ 1 := by
  simp only [tankSpeeds]
  constructor
  · split_ifs
    · norm_num
    · exact abs_clamp_unit_le_one a
  · split_ifs
    · norm_num
    · exact abs_clamp_unit_le_one b

/-- C8: every public output operation of the kinematics model (forward,
rotate, driveVector, driveVectorVoltage, tank, arcade, left, right, stop)
sends each motor it commands a value whose magnitude is at most maxVelocity
for velocity commands and maxVoltage for voltage commands, for all
real-valued inputs. -/
theorem all_outputs_within_limits :
    ∀ (m : SkidSteerModel) (sp lsp rsp f y t : ℚ),
      0 ≤ m.maxVelocity → 0 ≤ m.maxVoltage →
      ((m.forward sp).leftCmd.withinLimits m.maxVelocity m.maxVoltage ∧
       (m.forward sp).rightCmd.withinLimits m.maxVelocity m.maxVoltage) ∧
      ((m.rotate sp).leftCmd.withinLimits m.maxVelocity m.maxVoltage ∧
       (m.rotate sp).rightCmd.withinLimits m.maxVelocity m.maxVoltage) ∧
      ((m.driveVector f y).leftCmd.withinLimits m.maxVelocity m.maxVoltage ∧
       (m.driveVector f y).rightCmd.withinLimits m.maxVelocity m.maxVoltage) ∧
      ((m.driveVectorVoltage f y).leftCmd.withinLimits m.maxVelocity m.maxVoltage ∧
       (m.driveVectorVoltage f y).rightCmd.withinLimits m.maxVelocity m.maxVoltage) ∧
      ((m.tank lsp rsp t).leftCmd.withinLimits m.maxVelocity m.maxVoltage ∧
       (m.tank lsp rsp t).rightCmd.withinLimits m.maxVelocity m.maxVoltage) ∧
      ((m.arcade f y t).leftCmd.withinLimits m.maxVelocity m.maxVoltage ∧
       (m.arcade f y t).rightCmd.withinLimits m.maxVelocity m.maxVoltage) ∧
      (m.left sp).leftCmd.withinLimits m.maxVelocity m.maxVoltage ∧
      (m.right sp).rightCmd.withinLimits m.maxVelocity m.maxVoltage ∧
      (m.stop.leftCmd.withinLimits m.maxVelocity m.maxVoltage ∧
       m.stop.rightCmd.withinLimits m.maxVelocity m.maxVoltage) := by
  intro m sp lsp rsp f y t hvel hvolt
  have hneg : |(-1 : ℚ) * clamp sp (-1) 1| ≤ 1 := by
    rw [neg_one_mul, abs_neg]
    exact abs_clamp_unit_le_one sp
  refine ⟨⟨?_, ?_⟩, ⟨?_, ?_⟩, ⟨?_, ?_⟩, ⟨?_, ?_⟩, ⟨?_, ?_⟩, ⟨?_, ?_⟩, ?_, ?_, ⟨?_, ?_⟩⟩
  · exact abs_mul_le_of_abs_le_one (abs_clamp_unit_le_one sp) hvel
  · exact abs_mul_le_of_abs_le_one (abs_clamp_unit_le_one sp) hvel
  · exact abs_mul_le_of_abs_le_one (abs_clamp_unit_le_one sp) hvel
  · exact abs_mul_le_of_abs_le_one hneg hvel
  · exact abs_mul_le_of_abs_le_one (driveVectorOutputs_abs_le f y).1 hvel
  · exact abs_mul_le_of_abs_le_one (driveVectorOutputs_abs_le f y).2 hvel
  · exact abs_mul_le_of_abs_le_one (driveVectorOutputs_abs_le f y).1 hvolt
  · exact abs_mul_le_of_abs_le_one (driveVectorOutputs_abs_le f y).2 hvolt
  · exact abs_mul_le_of_abs_le_one (tankSpeeds_abs_le_one lsp rsp t).1 hvolt
  · exact abs_mul_le_of_abs_le_one (tankSpeeds_abs_le_one lsp rsp t).2 hvolt
  · exact abs_mul_le_of_abs_le_one (abs_clamp_unit_le_one _) hvolt
  · exact abs_mul_le_of_abs_le_one (abs_clamp_unit_le_one _) hvolt
  · exact abs_mul_le_of_abs_le_one (abs_clamp_unit_le_one sp) hvel
  · exact abs_mul_le_of_abs_le_one (abs_clamp_unit_le_one sp) hvel
  · show |(0 : ℚ)| ≤ m.maxVelocity
    rw [abs_zero]
    exact hvel
  · show |(0 : ℚ)| ≤ m.maxVelocity
    rw [abs_zero]
    exact hvel

/-- Witness for C8 at deliberately out-of-range inputs on the sample
model. -/
theorem all_outputs_within_limits_witness :
    (0 ≤ sampleModel.maxVelocity ∧ 0 ≤ sampleModel.maxVoltage) ∧
    (sampleModel.driveVector 7 (-3)).leftCmd.withinLimits
      sampleModel.maxVelocity sampleModel.maxVoltage ∧
    (sampleModel.arcade 7 (-3) (1/10)).rightCmd.withinLimits
      sampleModel.maxVelocity sampleModel.maxVoltage :=
  ⟨⟨by norm_num [sampleModel], by norm_num [sampleModel]⟩,
   ((all_outputs_within_limits sampleModel 2 2 2 7 (-3) (1/10)
      (by norm_num [sampleModel]) (by norm_num [sampleModel])).2.2.1).1,
   ((all_outputs_within_limits sampleModel 2 2 2 7 (-3) (1/10)
      (by norm_num [sampleModel]) (by norm_num [sampleModel])).2.2.2.2.2.1).2⟩

/-- Witness for C10 at the sample builder with three distinct gains. -/
theorem withGains_build_spec_witness :
    sampleBuilder.hasMotors = true ∧
    ((sampleBuilder.withGains sampleGainsA sampleGainsB sampleGainsC).buildCCPID.turnController.gains
        = sampleGainsC ∧
     (sampleBuilder.withGains sampleGainsA sampleGainsB sampleGainsC).buildCCPID.angleController.gains
        = sampleGainsB) :=
  ⟨by decide,
   (withGains_build_spec sampleBuilder sampleGainsA sampleGainsB sampleGainsC (by decide)).2.2.2.1,
   (withGains_build_spec sampleBuilder sampleGainsA sampleGainsB sampleGainsC (by decide)).2.2.2.2.1⟩

/-- C5: on a background tick with the loop active (doneLooping false), a
mode change since the previous tick or a pending newMovement makes the tick
snapshot the current sensor read as the new baseline and clear newMovement,
and otherwise the baseline is kept; in DISTANCE mode the tick issues
driveVector of the distance PID stepped on (leftDelta + rightDelta)/2 and
the angle PID stepped on leftDelta - rightDelta, where the deltas are
against the effective baseline; in ANGLE mode it issues rotate of the turn
PID stepped on leftDelta - rightDelta; in NONE mode the model and the PIDs
are untouched; with the loop idle (doneLooping true) the tick changes
nothing. -/
theorem loopTick_spec :
    ∀ (s : ChassisControllerPID) (pm : ModeType) (b eA eB : ℤ × ℤ) (fD fA fT : ℚ → ℚ),
      (s.doneLooping = true → s.loopTick pm b eA eB fD fA fT = (s, pm, b)) ∧
      (s.doneLooping = false → (s.mode ≠ pm ∨ s.newMovement = true) →
        (s.loopTick pm b eA eB fD fA fT).2.2 = eA ∧
        (s.loopTick pm b eA eB fD fA fT).1.newMovement = false) ∧
      (s.doneLooping = false → s.mode = pm → s.newMovement = false →
        (s.loopTick pm b eA eB fD fA fT).2.2 = b) ∧
      (s.doneLooping = false →
        (s.loopTick pm b eA eB fD fA fT).2.1 = s.mode) ∧
      (s.doneLooping = false → s.mode = ModeType.distance →
        ∀ bl : ℤ × ℤ, (if s.mode ≠ pm ∨ s.newMovement = true then eA else b) = bl →
          (s.loopTick pm b eA eB fD fA fT).1.model =
            s.model.driveVector
              (fD ((((eB.1 - bl.1 : ℤ) : ℚ) + ((eB.2 - bl.2 : ℤ) : ℚ)) / 2))
              (fA (((eB.1 - bl.1 : ℤ) : ℚ) - ((eB.2 - bl.2 : ℤ) : ℚ)))) ∧
      (s.doneLooping = false → s.mode = ModeType.angle →
        ∀ bl : ℤ × ℤ, (if s.mode ≠ pm ∨ s.newMovement = true then eA else b) = bl →
          (s.loopTick pm b eA eB fD fA fT).1.model =
            s.model.rotate
              (fT (((eB.1 - bl.1 : ℤ) : ℚ) - ((eB.2 - bl.2 : ℤ) : ℚ)))) ∧
      (s.doneLooping = false → s.mode = ModeType.none →
        (s.loopTick pm b eA eB fD fA fT).1.model = s.model ∧
        (s.loopTick pm b eA eB fD fA fT).1.distancePid = s.distancePid ∧
        (s.loopTick pm b eA eB fD fA fT).1.anglePid = s.anglePid ∧
        (s.loopTick pm b eA eB fD fA fT).1.turnPid = s.turnPid) := by
  intro s pm b eA eB fD fA fT
  refine ⟨?_, ?_, ?_, ?_, ?_, ?_, ?_⟩
  · intro h
    simp [ChassisControllerPID.loopTick, h]
  · intro h hc
    cases hm : s.mode <;> rw [hm] at hc <;>
      simp [ChassisControllerPID.loopTick, h, hm, if_pos hc]
  · intro h hm hn
    have hc : ¬(s.mode ≠ pm ∨ s.newMovement = true) := by
      simp [hm, hn]
    cases hmm : s.mode <;> rw [hmm] at hc <;>
      simp [ChassisControllerPID.loopTick, h, hmm, if_neg hc]
  · intro h
    by_cases hc : (s.mode ≠ pm ∨ s.newMovement = true)
    · cases hm : s.mode <;> rw [hm] at hc <;>
        simp [ChassisControllerPID.loopTick, h, hm, if_pos hc]
    · cases hm : s.mode <;> rw [hm] at hc <;>
        simp [ChassisControllerPID.loopTick, h, hm, if_neg hc]
  · intro h hm bl hbl
    rw [hm] at hbl
    by_cases hc : (ModeType.distance ≠ pm ∨ s.newMovement = true)
    · rw [if_pos hc] at hbl
      subst hbl
      simp [ChassisControllerPID.loopTick, h, hm, if_pos hc, Int.cast_add, Int.cast_sub]
    · rw [if_neg hc] at hbl
      subst hbl
      simp [ChassisControllerPID.loopTick, h, hm, if_neg hc, Int.cast_add, Int.cast_sub]
  · intro h hm bl hbl
    rw [hm] at hbl
    by_cases hc : (ModeType.angle ≠ pm ∨ s.newMovement = true)
    · rw [if_pos hc] at hbl
      subst hbl
      simp [ChassisControllerPID.loopTick, h, hm, if_pos hc, Int.cast_add, Int.cast_sub]
    · rw [if_neg hc] at hbl
      subst hbl
      simp [ChassisControllerPID.loopTick, h, hm, if_neg hc, Int.cast_add, Int.cast_sub]
  · intro h hm
    by_cases hc : (s.mode ≠ pm ∨ s.newMovement = true)
    · rw [hm] at hc
      simp [ChassisControllerPID.loopTick, h, hm, if_pos hc]
    · rw [hm] at hc
      simp [ChassisControllerPID.loopTick, h, hm, if_neg hc]

/-- The sample controller while an asynchronous distance movement is
active. -/
def sampleActiveCCP : ChassisControllerPID :=
  { sampleCCP with
    doneLooping := false,
    mode := ModeType.distance,
    newMovement := true }

/-- Witness for C5: an active DISTANCE tick with a pending newMovement on a
concrete state re-baselines at (3, 5) and issues driveVector with the
stepped errors. -/
theorem loopTick_spec_witness :
    (sampleActiveCCP.doneLooping = false ∧
     sampleActiveCCP.mode = ModeType.distance) ∧
    (sampleActiveCCP.loopTick ModeType.none (0, 0)
          (3, 5) (7, 11) (fun e => e) (fun e => e) (fun e => e)).1.model =
      sampleModel.driveVector ((((7 - 3 : ℤ) : ℚ) + ((11 - 5 : ℤ) : ℚ)) / 2)
        (((7 - 3 : ℤ) : ℚ) - ((11 - 5 : ℤ) : ℚ)) :=
  ⟨⟨rfl, rfl⟩, by
    have h := (loopTick_spec sampleActiveCCP ModeType.none (0, 0) (3, 5) (7, 11)
      (fun e => e) (fun e => e) (fun e => e)).2.2.2.2.1 rfl rfl (3, 5)
      (by simp [sampleActiveCCP])
    simpa [sampleActiveCCP, sampleCCP] using h⟩

/-- C1: whenever waitUntilSettled returns, the returned state has all three
PIDs disabled, the model stopped (zero velocity to both sides), mode NONE
and doneLooping true; in DISTANCE mode it returns as soon as the distance
and angle PIDs report settled simultaneously and in ANGLE mode as soon as
the turn PID reports settled; in particular moveDistanceAsync followed
immediately by waitUntilSettled ends with mode NONE and the distance and
angle PIDs disabled. -/
theorem waitUntilSettled_spec :
    (∀ (s : ChassisControllerPID) (tr : List Tick) (fuel : ℕ)
       (s' : ChassisControllerPID),
      s.waitUntilSettled tr fuel = Option.some s' →
      s'.distancePid.disabled = true ∧ s'.anglePid.disabled = true ∧
      s'.turnPid.disabled = true ∧
      s'.model.leftCmd = MotorCmd.velocity 0 ∧
      s'.model.rightCmd = MotorCmd.velocity 0 ∧
      s'.mode = ModeType.none ∧ s'.doneLooping = true) ∧
    (∀ (s : ChassisControllerPID) (t : Tick) (rest : List Tick) (fuel : ℕ),
      s.mode = ModeType.distance → t.distanceSettled = true → t.angleSettled = true →
      s.waitUntilSettled (t :: rest) (fuel + 1) =
        Option.some { (s.applyEvent t.event).stopAfterSettled with
                      mode := ModeType.none, doneLooping := true }) ∧
    (∀ (s : ChassisControllerPID) (t : Tick) (rest : List Tick) (fuel : ℕ),
      s.mode = ModeType.angle → t.turnSettled = true →
      s.waitUntilSettled (t :: rest) (fuel + 1) =
        Option.some { (s.applyEvent t.event).stopAfterSettled with
                      mode := ModeType.none, doneLooping := true }) ∧
    (∀ (d : ℚ) (s : ChassisControllerPID) (tr : List Tick) (fuel : ℕ)
       (s' : ChassisControllerPID),
      (s.moveDistanceAsync d).waitUntilSettled tr fuel = Option.some s' →
      s'.mode = ModeType.none ∧ s'.distancePid.disabled = true ∧
      s'.anglePid.disabled = true) := by
  have main : ∀ (s : ChassisControllerPID) (tr : List Tick) (fuel : ℕ)
      (s' : ChassisControllerPID),
      s.waitUntilSettled tr fuel = Option.some s' →
      s'.distancePid.disabled = true ∧ s'.anglePid.disabled = true ∧
      s'.turnPid.disabled = true ∧
      s'.model.leftCmd = MotorCmd.velocity 0 ∧
      s'.model.rightCmd = MotorCmd.velocity 0 ∧
      s'.mode = ModeType.none ∧ s'.doneLooping = true := by
    intro s tr fuel s' h
    unfold ChassisControllerPID.waitUntilSettled at h
    cases hl : s.waitUntilSettledLoop tr fuel with
    | none => rw [hl] at h; cases h
    | some p =>
      rw [hl] at h
      obtain ⟨s'', tr''⟩ := p
      simp only [Option.some.injEq] at h
      subst h
      simp [ChassisControllerPID.stopAfterSettled, IterativePosPIDController.flipDisable,
        SkidSteerModel.stop]
  refine ⟨main, ?_, ?_, ?_⟩
  · intro s t rest fuel hm hd ha
    simp [ChassisControllerPID.waitUntilSettled, ChassisControllerPID.waitUntilSettledLoop,
      ChassisControllerPID.waitForDistanceSettled, hm, hd, ha]
  · intro s t rest fuel hm ht
    simp [ChassisControllerPID.waitUntilSettled, ChassisControllerPID.waitUntilSettledLoop,
      ChassisControllerPID.waitForAngleSettled, hm, ht]
  · intro d s tr fuel s' h
    exact ⟨(main _ _ _ _ h).2.2.2.2.2.1, (main _ _ _ _ h).1, (main _ _ _ _ h).2.1⟩

/-- Witness for C1: from the active sample state, a single tick reporting
both distance and angle PIDs settled makes waitUntilSettled return the
stopped idle state. -/
theorem waitUntilSettled_spec_witness :
    (sampleActiveCCP.mode = ModeType.distance ∧
     (Tick.mk Option.none true true false).distanceSettled = true ∧
     (Tick.mk Option.none true true false).angleSettled = true) ∧
    sampleActiveCCP.waitUntilSettled [Tick.mk Option.none true true false] 1 =
      Option.some { (sampleActiveCCP.applyEvent Option.none).stopAfterSettled with
                    mode := ModeType.none, doneLooping := true } :=
  ⟨⟨rfl, rfl, rfl⟩,
   waitUntilSettled_spec.2.1 sampleActiveCCP (Tick.mk Option.none true true false) [] 0
     rfl rfl rfl⟩

/-- C2: if the distance settle-wait returns without settlement, it is
because the shared mode changed to ANGLE (a concurrent turnAngleAsync), and
the outer settle-wait loop then re-evaluates against the turn PID's settled
condition from the new state; symmetrically an angle settle-wait only aborts
to DISTANCE; in the concrete scenario where a turnAngleAsync lands while
waitUntilSettled of a prior moveDistanceAsync is polling, the wait resolves
exactly when the turn PID settles, although the distance condition never
settled. -/
theorem waitUntilSettled_modeChange :
    (∀ (s : ChassisControllerPID) (tr : List Tick) (s' : ChassisControllerPID)
       (tr' : List Tick),
      ChassisControllerPID.waitForDistanceSettled s tr = Option.some (false, s', tr') →
      s'.mode = ModeType.angle) ∧
    (∀ (s : ChassisControllerPID) (tr : List Tick) (s' : ChassisControllerPID)
       (tr' : List Tick),
      ChassisControllerPID.waitForAngleSettled s tr = Option.some (false, s', tr') →
      s'.mode = ModeType.distance) ∧
    (∀ (s : ChassisControllerPID) (tr : List Tick) (s' : ChassisControllerPID)
       (tr' : List Tick) (fuel : ℕ),
      s.mode = ModeType.distance →
      ChassisControllerPID.waitForDistanceSettled s tr = Option.some (false, s', tr') →
      s.waitUntilSettledLoop tr (fuel + 1) = s'.waitUntilSettledLoop tr' fuel) ∧
    (∀ (s : ChassisControllerPID) (tr : List Tick) (s'' : ChassisControllerPID)
       (tr'' : List Tick) (fuel : ℕ),
      s.mode = ModeType.angle →
      ChassisControllerPID.waitForAngleSettled s tr = Option.some (true, s'', tr'') →
      s.waitUntilSettledLoop tr (fuel + 1) = Option.some (s'', tr'')) ∧
    (∀ (s : ChassisControllerPID) (d a : ℚ) (fuel : ℕ),
      (s.moveDistanceAsync d).waitUntilSettled
          [Tick.mk Option.none false false true,
           Tick.mk (Option.some (ClientEvent.turnAngle a)) false false false,
           Tick.mk Option.none false false true] (fuel + 2) =
        Option.some { ((s.moveDistanceAsync d).turnAngleAsync a).stopAfterSettled with
                      mode := ModeType.none, doneLooping := true }) := by
  refine ⟨?_, ?_, ?_, ?_, ?_⟩
  · intro s tr
    induction tr generalizing s with
    | nil =>
      intro s' tr' h
      simp [ChassisControllerPID.waitForDistanceSettled] at h
    | cons t rest ih =>
      intro s' tr' h
      simp only [ChassisControllerPID.waitForDistanceSettled] at h
      by_cases hb : (t.distanceSettled && t.angleSettled) = true
      · simp [hb] at h
      · simp only [hb, if_false, Bool.false_eq_true] at h
        by_cases hm : (s.applyEvent t.event).mode = ModeType.angle
        · simp only [hm, if_true, Option.some.injEq, Prod.mk.injEq, if_pos] at h
          rw [← h.2.1]
          exact hm
        · simp only [hm, if_false] at h
          exact ih _ _ _ h
  · intro s tr
    induction tr generalizing s with
    | nil =>
      intro s' tr' h
      simp [ChassisControllerPID.waitForAngleSettled] at h
    | cons t rest ih =>
      intro s' tr' h
      simp only [ChassisControllerPID.waitForAngleSettled] at h
      by_cases hb : t.turnSettled = true
      · simp [hb] at h
      · simp only [hb, if_false, Bool.false_eq_true] at h
        by_cases hm : (s.applyEvent t.event).mode = ModeType.distance
        · simp only [hm, if_true, Option.some.injEq, Prod.mk.injEq, if_pos] at h
          rw [← h.2.1]
          exact hm
        · simp only [hm, if_false] at h
          exact ih _ _ _ h
  · intro s tr s' tr' fuel hm heq
    simp [ChassisControllerPID.waitUntilSettledLoop, hm, heq]
  · intro s tr s'' tr'' fuel hm heq
    simp [ChassisControllerPID.waitUntilSettledLoop, hm, heq]
  · intro s d a fuel
    simp [ChassisControllerPID.waitUntilSettled, ChassisControllerPID.waitUntilSettledLoop,
      ChassisControllerPID.waitForDistanceSettled, ChassisControllerPID.waitForAngleSettled,
      ChassisControllerPID.applyEvent, ChassisControllerPID.moveDistanceAsync,
      ChassisControllerPID.turnAngleAsync]

/-- Witness for C2: from the active sample state, a concurrent
turnAngleAsync tick aborts the distance wait with the new angle-mode state,
and the loop re-dispatches from it. -/
theorem waitUntilSettled_modeChange_witness :
    (ChassisControllerPID.waitForDistanceSettled sampleActiveCCP
        [Tick.mk (Option.some (ClientEvent.turnAngle 6)) false false false] =
      Option.some (false, sampleActiveCCP.turnAngleAsync 6, []) ∧
     sampleActiveCCP.mode = ModeType.distance) ∧
    (sampleActiveCCP.turnAngleAsync 6).mode = ModeType.angle ∧
    sampleActiveCCP.waitUntilSettledLoop
        [Tick.mk (Option.some (ClientEvent.turnAngle 6)) false false false] 5 =
      (sampleActiveCCP.turnAngleAsync 6).waitUntilSettledLoop [] 4 :=
  ⟨⟨rfl, rfl⟩,
   waitUntilSettled_modeChange.1 sampleActiveCCP
     [Tick.mk (Option.some (ClientEvent.turnAngle 6)) false false false]
     (sampleActiveCCP.turnAngleAsync 6) [] rfl,
   waitUntilSettled_modeChange.2.2.1 sampleActiveCCP
     [Tick.mk (Option.some (ClientEvent.turnAngle 6)) false false false]
     (sampleActiveCCP.turnAngleAsync 6) [] 4 rfl rfl⟩

end Okapi
